import Mathlib

/-!
Shallow embedding of `src/main.rs` of DuckyBlender/zastepstwa-rust: a caching
HTTP proxy that resolves a requested date (explicit `day`/`month` query or a
relative `today`/`tomorrow` token), consults a per-date file cache with a
10-minute freshness window, and otherwise fetches a PDF from a fixed upstream,
persisting it before serving.

The embedding models one resolution for one canonical date.  Ambient effects
are made explicit:
* the local clock is a parameter (`Env.now`, in seconds; for the relative
  endpoint also a `ClockEnv` carrying the weekday and the calendar dates of
  today and tomorrow as chrono would compute them);
* the cache directory's state for the requested date is an
  `Option CacheEntry` (file content plus mtime);
* the single upstream request's result is an oracle (`FetchResult`),
  mirroring `reqwest::get` followed by `.bytes()`;
* each filesystem call's success is an oracle bit (`FsOracle`), mirroring the
  `tokio::fs` calls in source order;
* a `.expect(..)` failure in the Rust (a panic aborting the request) is the
  `HandlerResult.panicked` outcome, distinct from the JSON error results.
-/

namespace Zastepstwa

/-- Weekday of the local clock, as `chrono::Weekday`. -/
inductive Weekday
  | mon | tue | wed | thu | fri | sat | sun
deriving DecidableEq, Repr

/-- File or response-body content, as a byte list. -/
abbrev Bytes := List Nat

/-- A cached artifact for one date: its bytes and its filesystem
modification time, in seconds of local time. -/
structure CacheEntry where
  content : Bytes
  mtime : Int
deriving DecidableEq, Repr

/-- The cache directory's state for one canonical date: the file, or absent. -/
abbrev Cache := Option CacheEntry

/-- Result of `response.bytes().await` on a 200 response. -/
inductive BodyRead
  | ok (bytes : Bytes)
  | err
deriving DecidableEq, Repr

/-- Result of the single `reqwest::get` call: transport failure before any
status, or a response with its HTTP status and the (possibly failing)
body read. -/
inductive FetchResult
  | transportFailure
  | response (status : Nat) (body : BodyRead)
deriving DecidableEq, Repr

/-- Success of each filesystem operation a resolution can perform, in source
order: `fs::metadata` (together with `metadata.modified()`),
`fs::remove_file`, `fs::File::create`, `file.write_all`, `NamedFile::open` of
a fresh cached file, and `NamedFile::open` of the file just persisted. -/
structure FsOracle where
  metadataOk : Bool
  removeOk : Bool
  createOk : Bool
  writeOk : Bool
  openCachedOk : Bool
  openStoredOk : Bool
deriving DecidableEq, Repr

/-- Ambient state of one resolution: the local clock (seconds), the upstream
oracle, and the filesystem oracle. -/
structure Env where
  now : Int
  fetch : FetchResult
  fs : FsOracle
deriving DecidableEq, Repr

/-- The distinct JSON error payloads (`json!({"error": ...})`) the two
handlers can return, with their data-carrying parts. -/
inductive ErrMsg
  | invalidDate
  | offline
  | createFailed
  | downloadFailed
  | writeFailed
  | openFailed
  | noSubstitutionsForDate (date : String)
  | unknownUpstreamStatus (status : Nat)
  | tomorrowIsSaturday
  | tomorrowIsSunday
  | todayIsSaturday
  | todayIsSunday
  | invalidParameter
deriving DecidableEq, Repr

/-- What a handler returns for the request: a served file's bytes
(`Ok(NamedFile)`), a JSON error (`Err(json!..)`), or a panic from an
`.expect(msg)` call, carrying the expectation message. -/
inductive HandlerResult
  | ok (content : Bytes)
  | err (e : ErrMsg)
  | panicked (msg : String)
deriving DecidableEq, Repr

/-- Full observable outcome of one resolution: the handler's result, the
final cache state for the date, whether any cache-directory operation was
performed, and whether an upstream request was issued. -/
structure Outcome where
  result : HandlerResult
  cache : Cache
  fsAccessed : Bool
  fetched : Bool
deriving DecidableEq, Repr

/-- `chrono::Duration::num_minutes` of a duration given in whole seconds:
integer division truncating toward zero. -/
def numMinutes (secs : Int) : Int := Int.tdiv secs 60

/-- `format!("{:02}", n)`: decimal, zero-padded on the left to width 2. -/
def pad2 (n : Nat) : String :=
  if n < 10 then "0" ++ toString n else toString n

/-- The canonical date built by `get_data` (line 22-24): day zero-padded to
two digits, then the month and the current local year as written by `{}`. -/
def explicitDate (day month : Nat) (year : Int) : String :=
  pad2 day ++ "." ++ toString month ++ "." ++ toString year

/-- A local calendar date as chrono exposes it. -/
structure LocalDate where
  day : Nat
  month : Nat
  year : Int
deriving DecidableEq, Repr

/-- chrono's `%d.%m.%Y` formatting used by `auto_get_data` (line 162):
zero-padded day, zero-padded month, the year (4-digit for current years). -/
def formatDMY (d : LocalDate) : String :=
  pad2 d.day ++ "." ++ pad2 d.month ++ "." ++ toString d.year

/-- The relative endpoint's view of the local clock: today's weekday and the
calendar dates of now and of now plus one day as chrono computes them. -/
structure ClockEnv where
  weekday : Weekday
  today : LocalDate
  tomorrow : LocalDate
deriving DecidableEq, Repr

/-- Cache file path for a date (lines 27, 70, 166, 209). -/
def cacheFilePath (date : String) : String := "./cached/" ++ date ++ ".pdf"

/-- Upstream URL for a date (lines 57, 196). -/
def upstreamUrl (date : String) : String :=
  "https://zastepstwa.zschie.pl/pliki/" ++ date ++ ".pdf"

/-- Lines 55-123 of `get_data`: issue the upstream request and classify it.
On 200 the cache file is created first, the body is read next, and the bytes
are written last; the persisted file is then opened with
`.expect("Error while opening file")`.  On 404 or another status a JSON error
is returned and no file is written.  The cache for the date is absent on
entry (either it was absent or the stale file was just deleted). -/
def fetchAndStoreExplicit (date : String) (env : Env) : Outcome :=
  match env.fetch with
  | .transportFailure => ⟨.err .offline, none, true, true⟩
  | .response status body =>
    if status = 200 then
      if !env.fs.createOk then
        ⟨.err .createFailed, none, true, true⟩
      else
        match body with
        | .err => ⟨.err .downloadFailed, some ⟨[], env.now⟩, true, true⟩
        | .ok bytes =>
          if !env.fs.writeOk then
            ⟨.err .writeFailed, some ⟨[], env.now⟩, true, true⟩
          else if env.fs.openStoredOk then
            ⟨.ok bytes, some ⟨bytes, env.now⟩, true, true⟩
          else
            ⟨.panicked "Error while opening file", some ⟨bytes, env.now⟩, true, true⟩
    else if status = 404 then
      ⟨.err (.noSubstitutionsForDate date), none, true, true⟩
    else
      ⟨.err (.unknownUpstreamStatus status), none, true, true⟩

/-- Lines 194-268 of `auto_get_data`: identical to `fetchAndStoreExplicit`
except that opening the freshly persisted file is matched (lines 242-250) and
its failure returns the Error #4 JSON instead of panicking. -/
def fetchAndStoreAuto (date : String) (env : Env) : Outcome :=
  match env.fetch with
  | .transportFailure => ⟨.err .offline, none, true, true⟩
  | .response status body =>
    if status = 200 then
      if !env.fs.createOk then
        ⟨.err .createFailed, none, true, true⟩
      else
        match body with
        | .err => ⟨.err .downloadFailed, some ⟨[], env.now⟩, true, true⟩
        | .ok bytes =>
          if !env.fs.writeOk then
            ⟨.err .writeFailed, some ⟨[], env.now⟩, true, true⟩
          else if env.fs.openStoredOk then
            ⟨.ok bytes, some ⟨bytes, env.now⟩, true, true⟩
          else
            ⟨.err .openFailed, some ⟨bytes, env.now⟩, true, true⟩
    else if status = 404 then
      ⟨.err (.noSubstitutionsForDate date), none, true, true⟩
    else
      ⟨.err (.unknownUpstreamStatus status), none, true, true⟩

/-- Lines 26-123 of `get_data`, after the date is canonical: if the
cache file exists, read its metadata (`.expect` on failure); if younger than
10 whole minutes, open and serve it (`.expect` on failure); otherwise delete
it (`.expect` on failure) and fall through to the upstream fetch.  If the
file does not exist, fetch directly. -/
def serveExplicit (date : String) (env : Env) (cache : Cache) : Outcome :=
  match cache with
  | some entry =>
    if !env.fs.metadataOk then
      ⟨.panicked "Error while getting metadata", some entry, true, false⟩
    else
      let fileAge := env.now - entry.mtime
      if numMinutes fileAge < 10 then
        if env.fs.openCachedOk then
          ⟨.ok entry.content, some entry, true, false⟩
        else
          ⟨.panicked "Error while opening file", some entry, true, false⟩
      else
        if !env.fs.removeOk then
          ⟨.panicked "Error while deleting file", some entry, true, false⟩
        else
          fetchAndStoreExplicit date env
  | none => fetchAndStoreExplicit date env

/-- Lines 165-268 of `auto_get_data`, after the date is canonical: same
cache logic as `serveExplicit`, continuing into `fetchAndStoreAuto`. -/
def serveAuto (date : String) (env : Env) (cache : Cache) : Outcome :=
  match cache with
  | some entry =>
    if !env.fs.metadataOk then
      ⟨.panicked "Error while getting metadata", some entry, true, false⟩
    else
      let fileAge := env.now - entry.mtime
      if numMinutes fileAge < 10 then
        if env.fs.openCachedOk then
          ⟨.ok entry.content, some entry, true, false⟩
        else
          ⟨.panicked "Error while opening file", some entry, true, false⟩
      else
        if !env.fs.removeOk then
          ⟨.panicked "Error while deleting file", some entry, true, false⟩
        else
          fetchAndStoreAuto date env
  | none => fetchAndStoreAuto date env

/-- The `GET /?day=..&month=..` handler (lines 12-124): reject `day > 31` or
`month > 12` with the invalid-date JSON before touching the filesystem or the
network; otherwise build the canonical date and run the cache-or-fetch flow. -/
def get_data (day month : Nat) (year : Int) (env : Env) (cache : Cache) : Outcome :=
  if day > 31 ∨ month > 12 then
    ⟨.err .invalidDate, cache, false, false⟩
  else
    serveExplicit (explicitDate day month year) env cache

/-- The `GET /auto/?when=..` handler (lines 126-269): resolve the relative
token against the local clock (weekend short-circuits, otherwise today or
now + 1 day), then run the cache-or-fetch flow on the `%d.%m.%Y` date. -/
def auto_get_data (when : String) (clock : ClockEnv) (env : Env) (cache : Cache) : Outcome :=
  if when = "tomorrow" then
    match clock.weekday with
    | .fri => ⟨.err .tomorrowIsSaturday, cache, false, false⟩
    | .sat => ⟨.err .tomorrowIsSunday, cache, false, false⟩
    | _ => serveAuto (formatDMY clock.tomorrow) env cache
  else if when = "today" then
    match clock.weekday with
    | .sat => ⟨.err .todayIsSaturday, cache, false, false⟩
    | .sun => ⟨.err .todayIsSunday, cache, false, false⟩
    | _ => serveAuto (formatDMY clock.today) env cache
  else
    ⟨.err .invalidParameter, cache, false, false⟩

/-- Spec predicate (not from the source): the string has the exact shape
`DD.MM.YYYY` — two digits, a dot, two digits, a dot, four digits. -/
def isDDMMYYYY (s : String) : Bool :=
  match s.toList with
  | [d1, d2, p1, m1, m2, p2, y1, y2, y3, y4] =>
    d1.isDigit && d2.isDigit && p1 == '.' && m1.isDigit && m2.isDigit
      && p2 == '.' && y1.isDigit && y2.isDigit && y3.isDigit && y4.isDigit
  | _ => false

/-- Discriminator: is the handler result a JSON error (as opposed to a served
file or a panic)? -/
def HandlerResult.isJsonErr : HandlerResult → Bool
  | .err _ => true
  | _ => false

/-- A filesystem oracle in which every operation succeeds. -/
def fsAllOk : FsOracle := ⟨true, true, true, true, true, true⟩

/-- C1 counterexample: the valid explicit request `day = 5, month = 3` yields
the canonical string `05.3.2024` (at year 2024), which is not of the shape
`DD.MM.YYYY` because the month is printed with a single digit. -/
theorem c1_counterexample : isDDMMYYYY (explicitDate 5 3 2024) = false := by decide

/-- C1 (amended): for every valid explicit request the canonical date string
zero-pads the day to two digits and appends the current local year, but does
not zero-pad the month: the string matches `DD.MM.YYYY` exactly when the
month has two digits (10-12), and is `DD.M.YYYY` for months 1-9.  Verified at
the representative year 2024. -/
theorem c1_explicit_date_format (day : Nat) (hd : day ≤ 31)
    (month : Nat) (hm : month ≤ 12) (hm1 : 1 ≤ month) :
    isDDMMYYYY (explicitDate day month 2024) = decide (10 ≤ month) := by
  revert day month
  decide

/-- C1 witness: at `day = 15, month = 11` the canonical string has the
`DD.MM.YYYY` shape. -/
theorem c1_witness : isDDMMYYYY (explicitDate 15 11 2024) = decide (10 ≤ 11) :=
  c1_explicit_date_format 15 (by decide) 11 (by decide) (by decide)

/-- C2: at the failing input (empty cache, upstream answers 200, reading the
body fails) the request fails with the Error #2 JSON, yet a new zero-byte
cache file with the current mtime exists: the file is created before the body
is read, contradicting create-only-after-full-download. -/
theorem c2_partial_persist_at_failing_input :
    (serveExplicit "15.03.2024" ⟨0, .response 200 .err, fsAllOk⟩ none).result
      = .err .downloadFailed
    ∧ (serveExplicit "15.03.2024" ⟨0, .response 200 .err, fsAllOk⟩ none).cache
      = some ⟨[], 0⟩ := by decide

/-- C3: a cached file younger than 10 whole minutes is served directly with
no upstream request, in both handlers; a file aged 10 minutes or more is
deleted and the resolution continues exactly as the upstream-fetch
continuation from an empty cache. -/
theorem c3_cache_freshness (date : String) (env : Env) (entry : CacheEntry)
    (hm : env.fs.metadataOk = true) (ho : env.fs.openCachedOk = true)
    (hr : env.fs.removeOk = true) :
    (numMinutes (env.now - entry.mtime) < 10 →
      serveExplicit date env (some entry) = ⟨.ok entry.content, some entry, true, false⟩
      ∧ serveAuto date env (some entry) = ⟨.ok entry.content, some entry, true, false⟩)
    ∧ (10 ≤ numMinutes (env.now - entry.mtime) →
      serveExplicit date env (some entry) = fetchAndStoreExplicit date env
      ∧ serveAuto date env (some entry) = fetchAndStoreAuto date env) := by
  constructor
  · intro hfresh
    constructor <;> simp [serveExplicit, serveAuto, hm, ho, hfresh]
  · intro hstale
    have hlt : ¬ numMinutes (env.now - entry.mtime) < 10 := by omega
    constructor <;> simp [serveExplicit, serveAuto, hm, hr, hlt]

/-- C3 witness: a file two minutes old (mtime 120 seconds before now) is
served from the cache with no upstream request. -/
theorem c3_witness :
    serveExplicit "01.01.2024" ⟨0, .transportFailure, fsAllOk⟩ (some ⟨[7], -120⟩)
      = ⟨.ok [7], some ⟨[7], -120⟩, true, false⟩
    ∧ serveAuto "01.01.2024" ⟨0, .transportFailure, fsAllOk⟩ (some ⟨[7], -120⟩)
      = ⟨.ok [7], some ⟨[7], -120⟩, true, false⟩ :=
  (c3_cache_freshness "01.01.2024" ⟨0, .transportFailure, fsAllOk⟩ ⟨[7], -120⟩
    (by decide) (by decide) (by decide)).1 (by decide)

/-- C4: on a cache miss the upstream outcome is classified by status —
transport failure yields the upstream-unreachable error, 404 the
no-substitutions-for-date error, any other non-200 status the
unknown-upstream-status error carrying the raw code, and in these three
cases no cache file is written; 200 with a successful body read and
filesystem, persists the bytes and serves them.  Both handlers behave so. -/
theorem c4_upstream_classification (date : String) (env : Env) :
    (env.fetch = .transportFailure →
      serveExplicit date env none = ⟨.err .offline, none, true, true⟩
      ∧ serveAuto date env none = ⟨.err .offline, none, true, true⟩)
    ∧ (∀ b, env.fetch = .response 404 b →
      serveExplicit date env none = ⟨.err (.noSubstitutionsForDate date), none, true, true⟩
      ∧ serveAuto date env none = ⟨.err (.noSubstitutionsForDate date), none, true, true⟩)
    ∧ (∀ s b, env.fetch = .response s b → s ≠ 200 → s ≠ 404 →
      serveExplicit date env none = ⟨.err (.unknownUpstreamStatus s), none, true, true⟩
      ∧ serveAuto date env none = ⟨.err (.unknownUpstreamStatus s), none, true, true⟩)
    ∧ (∀ bytes, env.fetch = .response 200 (.ok bytes) →
      env.fs.createOk = true → env.fs.writeOk = true → env.fs.openStoredOk = true →
      serveExplicit date env none = ⟨.ok bytes, some ⟨bytes, env.now⟩, true, true⟩
      ∧ serveAuto date env none = ⟨.ok bytes, some ⟨bytes, env.now⟩, true, true⟩) := by
  refine ⟨fun h => ⟨?_, ?_⟩, fun b h => ⟨?_, ?_⟩, fun s b h hs h4 => ⟨?_, ?_⟩,
          fun bytes h hc hw ho => ⟨?_, ?_⟩⟩
  · simp [serveExplicit, fetchAndStoreExplicit, h]
  · simp [serveAuto, fetchAndStoreAuto, h]
  · simp [serveExplicit, fetchAndStoreExplicit, h]
  · simp [serveAuto, fetchAndStoreAuto, h]
  · simp [serveExplicit, fetchAndStoreExplicit, h, hs, h4]
  · simp [serveAuto, fetchAndStoreAuto, h, hs, h4]
  · simp [serveExplicit, fetchAndStoreExplicit, h, hc, hw, ho]
  · simp [serveAuto, fetchAndStoreAuto, h, hc, hw, ho]

/-- C4 witness: upstream answering 503 yields the unknown-upstream-status
error carrying 503, and no cache file is written. -/
theorem c4_witness :
    serveExplicit "01.01.2024" ⟨0, .response 503 (.ok []), fsAllOk⟩ none
      = ⟨.err (.unknownUpstreamStatus 503), none, true, true⟩
    ∧ serveAuto "01.01.2024" ⟨0, .response 503 (.ok []), fsAllOk⟩ none
      = ⟨.err (.unknownUpstreamStatus 503), none, true, true⟩ :=
  (c4_upstream_classification "01.01.2024" ⟨0, .response 503 (.ok []), fsAllOk⟩).2.2.1
    503 (.ok []) rfl (by decide) (by decide)

/-- C5: the token `tomorrow` fails with the tomorrow-is-Saturday or
tomorrow-is-Sunday weekend error when today is Friday or Saturday and
otherwise continues on the formatted date of now plus one day; the token
`today` fails with the weekend error on Saturday or Sunday and otherwise
continues on today's formatted date; any other token fails with the
invalid-parameter error. -/
theorem c5_relative_resolution (when : String) (clock : ClockEnv) (env : Env)
    (cache : Cache) :
    (when = "tomorrow" →
      (clock.weekday = .fri →
        auto_get_data when clock env cache = ⟨.err .tomorrowIsSaturday, cache, false, false⟩)
      ∧ (clock.weekday = .sat →
        auto_get_data when clock env cache = ⟨.err .tomorrowIsSunday, cache, false, false⟩)
      ∧ (clock.weekday ≠ .fri → clock.weekday ≠ .sat →
        auto_get_data when clock env cache = serveAuto (formatDMY clock.tomorrow) env cache))
    ∧ (when = "today" →
      (clock.weekday = .sat →
        auto_get_data when clock env cache = ⟨.err .todayIsSaturday, cache, false, false⟩)
      ∧ (clock.weekday = .sun →
        auto_get_data when clock env cache = ⟨.err .todayIsSunday, cache, false, false⟩)
      ∧ (clock.weekday ≠ .sat → clock.weekday ≠ .sun →
        auto_get_data when clock env cache = serveAuto (formatDMY clock.today) env cache))
    ∧ (when ≠ "tomorrow" → when ≠ "today" →
      auto_get_data when clock env cache = ⟨.err .invalidParameter, cache, false, false⟩) := by
  refine ⟨fun h => ⟨fun hw => ?_, fun hw => ?_, fun h1 h2 => ?_⟩,
          fun h => ⟨fun hw => ?_, fun hw => ?_, fun h1 h2 => ?_⟩,
          fun h1 h2 => ?_⟩
  · subst h; simp [auto_get_data, hw]
  · subst h; simp [auto_get_data, hw]
  · subst h
    rcases hw : clock.weekday <;> simp_all [auto_get_data]
  · subst h; simp [auto_get_data, hw]
  · subst h; simp [auto_get_data, hw]
  · subst h
    rcases hw : clock.weekday <;> simp_all [auto_get_data]
  · simp [auto_get_data, h1, h2]

/-- C5 witness: on a Friday, `when = tomorrow` fails with the
tomorrow-is-Saturday weekend error. -/
theorem c5_witness :
    auto_get_data "tomorrow" ⟨.fri, ⟨10, 5, 2024⟩, ⟨11, 5, 2024⟩⟩
        ⟨0, .transportFailure, fsAllOk⟩ none
      = ⟨.err .tomorrowIsSaturday, none, false, false⟩ :=
  ((c5_relative_resolution "tomorrow" ⟨.fri, ⟨10, 5, 2024⟩, ⟨11, 5, 2024⟩⟩
    ⟨0, .transportFailure, fsAllOk⟩ none).1 rfl).1 rfl

/-- C6: an explicit request with `day > 31` or `month > 12` fails with the
invalid-date error, with no filesystem access, no upstream request, and the
cache untouched. -/
theorem c6_invalid_date_rejected_before_io (day month : Nat) (year : Int)
    (env : Env) (cache : Cache) (h : day > 31 ∨ month > 12) :
    get_data day month year env cache = ⟨.err .invalidDate, cache, false, false⟩ := by
  unfold get_data
  rw [if_pos h]

/-- C6 witness: `day = 32, month = 1` is rejected with the invalid-date
error before any I/O. -/
theorem c6_witness :
    get_data 32 1 2024 ⟨0, .transportFailure, fsAllOk⟩ none
      = ⟨.err .invalidDate, none, false, false⟩ :=
  c6_invalid_date_rejected_before_io 32 1 2024 ⟨0, .transportFailure, fsAllOk⟩ none
    (Or.inl (by decide))

/-- C7 counterexample: with a stale cached file (one hour old) whose deletion
fails, the handler's result is the panic from
`.expect("Error while deleting file")` — not a JSON error result — so the
failure is not converted to a terminal CacheIOError result. -/
theorem c7_counterexample :
    (serveExplicit "01.01.2024"
        ⟨3600, .transportFailure, ⟨true, false, true, true, true, true⟩⟩
        (some ⟨[7], 0⟩)).result = .panicked "Error while deleting file"
    ∧ ((serveExplicit "01.01.2024"
        ⟨3600, .transportFailure, ⟨true, false, true, true, true, true⟩⟩
        (some ⟨[7], 0⟩)).result).isJsonErr = false := by decide

/-- C7 (amended): if reading the cached file's metadata fails, or a stale
file's deletion fails, the request aborts at the point of origin with the
corresponding `.expect` panic — a request-terminating abort, not a terminal
CacheIOError result; the failure is not swallowed and the resolution does
not proceed to the upstream fetch.  Both handlers behave so. -/
theorem c7_cache_io_failures_panic (date : String) (env : Env) (entry : CacheEntry) :
    (env.fs.metadataOk = false →
      serveExplicit date env (some entry)
        = ⟨.panicked "Error while getting metadata", some entry, true, false⟩
      ∧ serveAuto date env (some entry)
        = ⟨.panicked "Error while getting metadata", some entry, true, false⟩)
    ∧ (env.fs.metadataOk = true → 10 ≤ numMinutes (env.now - entry.mtime) →
        env.fs.removeOk = false →
      serveExplicit date env (some entry)
        = ⟨.panicked "Error while deleting file", some entry, true, false⟩
      ∧ serveAuto date env (some entry)
        = ⟨.panicked "Error while deleting file", some entry, true, false⟩) := by
  constructor
  · intro hm
    constructor <;> simp [serveExplicit, serveAuto, hm]
  · intro hm hstale hr
    have hlt : ¬ numMinutes (env.now - entry.mtime) < 10 := by omega
    constructor <;> simp [serveExplicit, serveAuto, hm, hr, hlt]

/-- C7 witness: a failing metadata read on a cached file aborts the request
with the metadata panic. -/
theorem c7_witness :
    serveExplicit "01.01.2024"
        ⟨0, .transportFailure, ⟨false, true, true, true, true, true⟩⟩ (some ⟨[7], 0⟩)
      = ⟨.panicked "Error while getting metadata", some ⟨[7], 0⟩, true, false⟩
    ∧ serveAuto "01.01.2024"
        ⟨0, .transportFailure, ⟨false, true, true, true, true, true⟩⟩ (some ⟨[7], 0⟩)
      = ⟨.panicked "Error while getting metadata", some ⟨[7], 0⟩, true, false⟩ :=
  (c7_cache_io_failures_panic "01.01.2024"
    ⟨0, .transportFailure, ⟨false, true, true, true, true, true⟩⟩ ⟨[7], 0⟩).1 rfl

/-- C8 counterexample: when the upstream fetch succeeds but opening the
freshly persisted file fails, the two post-resolution flows disagree — the
explicit handler panics while the relative handler returns the Error #4
JSON — so the two control paths are not identical. -/
theorem c8_counterexample :
    decide (serveExplicit "15.3.2024"
        ⟨5, .response 200 (.ok [1]), ⟨true, true, true, true, true, false⟩⟩ none
      = serveAuto "15.3.2024"
        ⟨5, .response 200 (.ok [1]), ⟨true, true, true, true, true, false⟩⟩ none)
      = false := by decide

/-- C8 (amended): for every canonical date, cache state and environment in
which opening the freshly persisted file succeeds, the post-resolution flows
of the explicit and the relative handler coincide exactly; they differ only
in how a failed open of the just-persisted file is handled (panic versus the
Error #4 JSON). -/
theorem c8_flows_agree_when_open_succeeds (date : String) (env : Env) (cache : Cache)
    (h : env.fs.openStoredOk = true) :
    serveExplicit date env cache = serveAuto date env cache := by
  have hf : fetchAndStoreExplicit date env = fetchAndStoreAuto date env := by
    unfold fetchAndStoreExplicit fetchAndStoreAuto
    rcases env.fetch with _ | ⟨s, b⟩
    · rfl
    · cases b <;> simp [h]
  cases cache <;> simp [serveExplicit, serveAuto, hf]

/-- C8 witness: with a fully successful filesystem, the two flows give the
same outcome on a concrete 200 response. -/
theorem c8_witness :
    serveExplicit "15.3.2024" ⟨5, .response 200 (.ok [1]), fsAllOk⟩ none
      = serveAuto "15.3.2024" ⟨5, .response 200 (.ok [1]), fsAllOk⟩ none :=
  c8_flows_agree_when_open_succeeds "15.3.2024" ⟨5, .response 200 (.ok [1]), fsAllOk⟩
    none rfl

/-- C9: if the upstream answers 200 but the body read fails, the handler
returns the Error #2 JSON while a zero-byte cache file with the current
mtime remains; a second request for the same date within 10 minutes finds
that file fresh and serves the empty content with no upstream request. -/
theorem c9_empty_cache_poisoning (date : String) (env0 env1 : Env)
    (h0f : env0.fetch = .response 200 .err) (h0c : env0.fs.createOk = true)
    (h1m : env1.fs.metadataOk = true) (h1o : env1.fs.openCachedOk = true)
    (hage : numMinutes (env1.now - env0.now) < 10) :
    (serveExplicit date env0 none).result = .err .downloadFailed
    ∧ (serveExplicit date env0 none).cache = some ⟨[], env0.now⟩
    ∧ serveExplicit date env1 ((serveExplicit date env0 none).cache)
        = ⟨.ok [], some ⟨[], env0.now⟩, true, false⟩ := by
  have h1 : serveExplicit date env0 none
      = ⟨.err .downloadFailed, some ⟨[], env0.now⟩, true, true⟩ := by
    simp [serveExplicit, fetchAndStoreExplicit, h0f, h0c]
  refine ⟨by rw [h1], by rw [h1], ?_⟩
  rw [h1]
  simp [serveExplicit, h1m, h1o, hage]

/-- C9 witness: the failed-body-read request at time 0 leaves the empty file;
the request 300 seconds later serves the empty content without fetching. -/
theorem c9_witness :
    (serveExplicit "15.03.2024" ⟨0, .response 200 .err, fsAllOk⟩ none).result
      = .err .downloadFailed
    ∧ (serveExplicit "15.03.2024" ⟨0, .response 200 .err, fsAllOk⟩ none).cache
      = some ⟨[], 0⟩
    ∧ serveExplicit "15.03.2024" ⟨300, .transportFailure, fsAllOk⟩
        ((serveExplicit "15.03.2024" ⟨0, .response 200 .err, fsAllOk⟩ none).cache)
      = ⟨.ok [], some ⟨[], 0⟩, true, false⟩ :=
  c9_empty_cache_poisoning "15.03.2024" ⟨0, .response 200 .err, fsAllOk⟩
    ⟨300, .transportFailure, fsAllOk⟩ rfl rfl rfl rfl (by decide)

/-- C10: the explicit validation checks only the upper bounds, so
`day = 0, month = 0` passes it: the handler proceeds to the cache-or-fetch
flow on the canonical string built from the zeros (`00.0.2024` at year
2024), and from an empty cache the upstream request is issued. -/
theorem c10_zero_date_accepted (year : Int) (env : Env) (cache : Cache) :
    get_data 0 0 year env cache = serveExplicit (explicitDate 0 0 year) env cache
    ∧ explicitDate 0 0 2024 = "00.0.2024"
    ∧ (get_data 0 0 2024 env none).fetched = true := by
  refine ⟨by simp [get_data], by decide, ?_⟩
  have h1 : get_data 0 0 2024 env none
      = fetchAndStoreExplicit (explicitDate 0 0 2024) env := by
    simp [get_data, serveExplicit]
  rw [h1]
  unfold fetchAndStoreExplicit
  rcases env.fetch with _ | ⟨s, b⟩
  · rfl
  · dsimp only
    repeat' split
    all_goals rfl

end Zastepstwa
